import Mathlib

/-!
Verification development for the speedwagon_scripts packaging pipeline.

The definitions below are a shallow embedding of the Python source in
`package_speedwagon/` (installer.py, freeze.py, package_speedwagon.py):

* Strategy callables are embedded by their observable behaviour: a strategy
  either returns a value or raises an exception.  The resolvers
  (`get_license`, `get_cpack_path`) are embedded as functions from the list
  of strategy behaviours to the pair (outcome, number of strategies
  invoked).  Since the Python loops walk the list strictly in order and
  stop at the first decision, the set of invoked strategies is exactly the
  prefix of the list whose length is the returned count.
* The file system is embedded as an association list from path to file
  content; `open(p, "w").write(c)` becomes `writeFile fs p c`.
* `packaging.version.Version` is embedded by the fields the code reads:
  release numbers, the `pre` pair, and the `dev` number, with
  `is_devrelease = dev is not None` and
  `is_prerelease = (dev is not None) or (pre is not None)`, matching the
  semantics of the `packaging` library for those attributes.
* Platform registries (`generators` in `write_cpack_config_file`,
  `config_os_mappings` in package_speedwagon.py, `strategies` in
  `find_frozen_folder`) are embedded as association lists from platform
  key to a tag naming the registered implementation, and the surrounding
  lookup-or-raise code as a function into `Except`.
-/

namespace SpeedwagonScripts

/-- Python exceptions distinguished by the code under study: the resolvers
catch `FileNotFoundError` specifically, registries raise `ValueError`, and
anything else propagates untouched. -/
inductive PyExc where
  | fileNotFoundError (msg : String)
  | valueError (msg : String)
  | otherError (msg : String)
deriving DecidableEq, Repr

/-- Behaviour of one license strategy callable (signature
`Callable[[], Optional[str]]` in installer.py): it either returns an
`Optional[str]` or raises an exception. -/
inductive LicenseStrategyBehavior where
  | returns (r : Option String)
  | raises (e : PyExc)
deriving DecidableEq, Repr

/-- Embedding of `get_license` (installer.py lines 36-44):

    for strategy in strategies_list:
        result = strategy()
        if result is None:
            continue
        return result
    raise FileNotFoundError("Unable to find license file")

The second component counts how many strategies were invoked; the loop is
strictly in list order, so the invoked strategies are exactly the prefix of
that length.  An exception raised by a strategy is not caught and
propagates at once. -/
def get_license : List LicenseStrategyBehavior → Except PyExc String × Nat
  | [] =>
      (Except.error (PyExc.fileNotFoundError "Unable to find license file"), 0)
  | LicenseStrategyBehavior.raises e :: _ => (Except.error e, 1)
  | LicenseStrategyBehavior.returns none :: rest =>
      ((get_license rest).1, (get_license rest).2 + 1)
  | LicenseStrategyBehavior.returns (some result) :: _ =>
      (Except.ok result, 1)

/-- Behaviour of one cpack-location strategy callable (signature
`Callable[[], str]` in installer.py): it either returns a path string or
raises an exception. -/
inductive CPackStrategyBehavior where
  | returns (v : String)
  | raises (e : PyExc)
deriving DecidableEq, Repr

/-- Embedding of `get_cpack_path` (installer.py lines 506-533), with an
explicit strategy list (the Python default argument merely fills in a
concrete list):

    for strategy in strategies:
        try:
            return strategy()
        except FileNotFoundError:
            continue
    raise FileNotFoundError("cpack command not found")

Only `FileNotFoundError` is caught; other exceptions propagate.  The second
component counts the invoked strategies (a strict prefix walk, as in
`get_license`). -/
def get_cpack_path : List CPackStrategyBehavior → Except PyExc String × Nat
  | [] => (Except.error (PyExc.fileNotFoundError "cpack command not found"), 0)
  | CPackStrategyBehavior.returns v :: _ => (Except.ok v, 1)
  | CPackStrategyBehavior.raises (PyExc.fileNotFoundError _) :: rest =>
      ((get_cpack_path rest).1, (get_cpack_path rest).2 + 1)
  | CPackStrategyBehavior.raises e :: _ => (Except.error e, 1)

/-- A cpack strategy that fails in the designated way: it raises
`FileNotFoundError` with some message. -/
def failingCpackStrategy (msg : String) : CPackStrategyBehavior :=
  CPackStrategyBehavior.raises (PyExc.fileNotFoundError msg)

/-- Embedding of `packaging.version.Version` by the attributes the code
reads: the release triple (`major`, `minor`, `micro`), the prerelease pair
`pre` (a letter-number pair such as `("rc", 123)`, or absent), and the
dev-release number `dev` (or absent). -/
structure Version where
  major : Nat
  minor : Nat
  micro : Nat
  pre : Option (String × Nat)
  dev : Option Nat
deriving DecidableEq, Repr

/-- `Version.is_devrelease` in the packaging library: the version carries a
dev segment. -/
def Version.is_devrelease (v : Version) : Bool := v.dev.isSome

/-- `Version.is_prerelease` in the packaging library: the version carries a
dev or a pre segment (so a dev release is always a prerelease in this data
model). -/
def Version.is_prerelease (v : Version) : Bool :=
  v.dev.isSome || v.pre.isSome

/-- The dev number the f-string `f".dev{version.dev}"` renders; the code
only reads it under `version.is_devrelease`, where `dev` is present. -/
def Version.devNum (v : Version) : Nat := v.dev.getD 0

/-- `''.join(map(str, version.pre))`: the letter followed by the decimal
number, e.g. `("rc", 123)` renders as `"rc123"`; the code only evaluates
this under `is_prerelease and not is_devrelease`, where `pre` is present. -/
def Version.preStr (v : Version) : String :=
  match v.pre with
  | some (letter, number) => letter ++ Nat.repr number
  | none => ""

namespace CPackGenerator

/-- Embedding of `CPackGenerator.get_cpack_package_file_name`
(installer.py lines 194-208): a plain tagged pattern for a non-prerelease,
a `.dev<n>` pattern without the system-name tag for a dev release, and a
`.<pre>` pattern with the system-name tag for any other prerelease. -/
def get_cpack_package_file_name (version : Version) : String :=
  if !version.is_prerelease then
    "$\x7bCPACK_PACKAGE_NAME\x7d-$\x7bCPACK_PACKAGE_VERSION\x7d-$\x7bCPACK_SYSTEM_NAME\x7d"
  else if version.is_devrelease then
    "$\x7bCPACK_PACKAGE_NAME\x7d-$\x7bCPACK_PACKAGE_VERSION\x7d" ++
      ".dev" ++ Nat.repr version.devNum
  else
    "$\x7bCPACK_PACKAGE_NAME\x7d-" ++ "$\x7bCPACK_PACKAGE_VERSION\x7d." ++
      version.preStr ++ "-$\x7bCPACK_SYSTEM_NAME\x7d"

end CPackGenerator

namespace MacOSPackageGenerator

/-- Embedding of `MacOSPackageGenerator.get_cpack_package_file_name`
(installer.py lines 422-441).  `processor` stands for
`platform.processor()`; the code maps `"i386"` to `x86_64` and anything
else to `arm64`, and appends `macos-<arch>` where the base class would use
the `CPACK_SYSTEM_NAME` tag (the dev branch included). -/
def get_cpack_package_file_name (processor : String) (version : Version) :
    String :=
  let arch := if processor = "i386" then "x86_64" else "arm64"
  let system := "macos-" ++ arch
  if !version.is_prerelease then
    "$\x7bCPACK_PACKAGE_NAME\x7d-$\x7bCPACK_PACKAGE_VERSION\x7d-" ++ system
  else if version.is_devrelease then
    "$\x7bCPACK_PACKAGE_NAME\x7d-$\x7bCPACK_PACKAGE_VERSION\x7d" ++
      ".dev" ++ Nat.repr version.devNum ++ "-" ++ system
  else
    "$\x7bCPACK_PACKAGE_NAME\x7d-" ++ "$\x7bCPACK_PACKAGE_VERSION\x7d." ++
      version.preStr ++ "-" ++ system

end MacOSPackageGenerator

/-- A Python dict with string keys, embedded as an association list in
insertion order with unique keys; `d[k] = v` replaces the value in place
when the key is present and appends the pair otherwise. -/
def updateAssoc {R : Type} :
    List (String × R) → String → R → List (String × R)
  | [], k, v => [(k, v)]
  | p :: rest, k, v =>
      if p.1 = k then (k, v) :: rest else p :: updateAssoc rest k v

/-- `dict(pairs)` in Python: fold the pairs into an initially empty dict. -/
def pyDict {R : Type} (l : List (String × R)) : List (String × R) :=
  l.foldl (fun d p => updateAssoc d p.1 p.2) []

/-- The file system, embedded as a dict from path to file content;
`open(p, "w").write(c)` is `writeFile fs p c`. -/
abbrev FS := List (String × String)

def writeFile (fs : FS) (path content : String) : FS :=
  updateAssoc fs path content

def readFile (fs : FS) (path : String) : Option String :=
  List.lookup path fs

/-- `os.path.join(dir, name)` with the separator of the embedding. -/
def joinPath (dir name : String) : String := dir ++ "/" ++ name

/-- `os.path.abspath` for already-normalized paths: an absolute path is
returned unchanged, a relative one is anchored at the working directory. -/
def abspath (cwd path : String) : String :=
  if path.startsWith "/" then path else cwd ++ "/" ++ path

/-- The inner `mapping` helper of `AbsGenerateSpecs.map_data` (freeze.py
lines 172-178) restricted to the key: rename the key through
`cls.key_mapping` when present, else pass it through. -/
def map_key (key_mapping : List (String × String)) (key : String) : String :=
  match List.lookup key key_mapping with
  | some t => t
  | none => key

/-- Embedding of `AbsGenerateSpecs.map_data` (freeze.py lines 172-178):

    def mapping(key, value):
        if key in cls.key_mapping:
            return cls.key_mapping[key], value
        return key, value
    return dict(map(lambda field: mapping(*field), fields))

`key_mapping` stands for the class attribute `cls.key_mapping`. -/
def map_data {R : Type} (key_mapping : List (String × String))
    (fields : List (String × R)) : List (String × R) :=
  pyDict (fields.map fun field => (map_key key_mapping field.1, field.2))

namespace DefaultGenerateSpecs

/-- `DefaultGenerateSpecs.key_mapping` (freeze.py lines 257-260). -/
def key_mapping : List (String × String) :=
  [("data_files", "datas"),
   ("top_level_package_folder_name", "hidden_imports")]

end DefaultGenerateSpecs

/-- Tags for the two `CPackGenerator` subclasses registered in
`write_cpack_config_file` (installer.py lines 452-455). -/
inductive CPackGeneratorKind where
  | windowsPackageGenerator
  | macOSPackageGenerator
deriving DecidableEq, Repr

/-- The `generators` registry of `write_cpack_config_file` (installer.py
lines 452-455). -/
def generators : List (String × CPackGeneratorKind) :=
  [("win32", CPackGeneratorKind.windowsPackageGenerator),
   ("darwin", CPackGeneratorKind.macOSPackageGenerator)]

/-- The registry-lookup step of `write_cpack_config_file` (installer.py
lines 456-458): `generators.get(sys.platform)`, raising
`ValueError(f"Unsupported platform '{sys.platform}'")` on a miss. -/
def write_cpack_config_file_generator (platform : String) :
    Except PyExc CPackGeneratorKind :=
  match List.lookup platform generators with
  | none =>
      Except.error
        (PyExc.valueError ("Unsupported platform \x27" ++ platform ++ "\x27"))
  | some k => Except.ok k

/-- Tags for the two `AbsConfigFactory` instances registered in
`config_os_mappings` (package_speedwagon.py). -/
inductive ConfigFactoryKind where
  | macConfigFactory
  | windowsConfigFactory
deriving DecidableEq, Repr

/-- The `config_os_mappings` registry of package_speedwagon.py. -/
def config_os_mappings : List (String × ConfigFactoryKind) :=
  [("darwin", ConfigFactoryKind.macConfigFactory),
   ("win32", ConfigFactoryKind.windowsConfigFactory)]

/-- The registry-lookup step of `main` (package_speedwagon.py lines
623-656): `config_os_mappings.get(sys.platform)`, raising
`ValueError(f"Unsupported platform: {sys.platform}")` on a miss. -/
def main_config_generator (platform : String) :
    Except PyExc ConfigFactoryKind :=
  match List.lookup platform config_os_mappings with
  | none =>
      Except.error (PyExc.valueError ("Unsupported platform: " ++ platform))
  | some k => Except.ok k

/-- Tags for the two frozen-folder search strategies registered in
`find_frozen_folder` (freeze.py lines 98-101). -/
inductive FrozenSearchStrategyKind where
  | find_frozen_windows
  | find_frozen_mac
deriving DecidableEq, Repr

/-- The `strategies` registry of `find_frozen_folder` (freeze.py lines
98-101). -/
def find_frozen_folder_strategies : List (String × FrozenSearchStrategyKind) :=
  [("win32", FrozenSearchStrategyKind.find_frozen_windows),
   ("darwin", FrozenSearchStrategyKind.find_frozen_mac)]

/-- The registry-lookup step of `find_frozen_folder` when no explicit
strategy is passed (freeze.py lines 102-105):
`strategies.get(sys.platform)`, raising
`ValueError(f"Unsupported platform: {sys.platform}")` on a miss. -/
def find_frozen_folder_strategy (platform : String) :
    Except PyExc FrozenSearchStrategyKind :=
  match List.lookup platform find_frozen_folder_strategies with
  | none =>
      Except.error (PyExc.valueError ("Unsupported platform: " ++ platform))
  | some k => Except.ok k

/-- Python `str.endswith`: the suffix check on the characters of the
string. -/
def pyEndsWith (s suffix : String) : Bool :=
  List.isSuffixOf suffix.data s.data

/-- A directory entry as `os.scandir` yields it: a name, whether it is a
directory, and — when it is a directory — its own entries, which
`locate_installer_artifact` must never look at. -/
inductive FileNode where
  | mk (name : String) (is_dir : Bool) (children : List FileNode)

def FileNode.name : FileNode → String
  | FileNode.mk n _ _ => n

def FileNode.isDirectory : FileNode → Bool
  | FileNode.mk _ d _ => d

def FileNode.children : FileNode → List FileNode
  | FileNode.mk _ _ c => c

/-- The `path` attribute of an `os.scandir` entry: the scanned directory
joined with the entry name. -/
def entry_path (path : String) (entry : FileNode) : String :=
  joinPath path entry.name

namespace AppleDMGPlatformPackager

/-- Embedding of `AppleDMGPlatformPackager.locate_installer_artifact`
(package_speedwagon.py lines 400-407): scan the direct entries of `path`
in order, skip directories, return the first file whose name ends in
`.dmg`, and raise `FileNotFoundError(f"No dmg file in {path}")` when the
scan is exhausted.  `entries` are the direct entries `os.scandir(path)`
yields. -/
def locate_installer_artifact (path : String) :
    List FileNode → Except PyExc String
  | [] => Except.error (PyExc.fileNotFoundError ("No dmg file in " ++ path))
  | i :: rest =>
      if i.isDirectory then locate_installer_artifact path rest
      else if pyEndsWith i.name ".dmg" then Except.ok (entry_path path i)
      else locate_installer_artifact path rest

end AppleDMGPlatformPackager

namespace MSIPlatformPackager

/-- Embedding of `MSIPlatformPackager.locate_installer_artifact`
(package_speedwagon.py lines 584-591): as the DMG variant, but matching
`.msi` and raising `FileNotFoundError(f"No .msi found in {path}")`. -/
def locate_installer_artifact (path : String) :
    List FileNode → Except PyExc String
  | [] => Except.error (PyExc.fileNotFoundError ("No .msi found in " ++ path))
  | i :: rest =>
      if i.isDirectory then locate_installer_artifact path rest
      else if pyEndsWith i.name ".msi" then Except.ok (entry_path path i)
      else locate_installer_artifact path rest

end MSIPlatformPackager

namespace GenerateNoLicenseGivenFile

/-- `GenerateNoLicenseGivenFile.get_license_text` (installer.py lines
73-75). -/
def get_license_text : String := "No License given"

/-- `GenerateNoLicenseGivenFile.write_license_file` (installer.py lines
77-79): overwrite the configured output file with the fixed text. -/
def write_license_file (output_file : String) (fs : FS) : FS :=
  writeFile fs output_file get_license_text

/-- `GenerateNoLicenseGivenFile.__call__` (installer.py lines 81-83):
write the license file, then return `os.path.abspath(self.output_file)`.
The Python return type is `Optional[str]` but the returned value is always
a path — the strategy never returns `None` and raises nothing. -/
def call (cwd output_file : String) (fs : FS) : FS × String :=
  (write_license_file output_file fs, abspath cwd output_file)

end GenerateNoLicenseGivenFile

namespace CPackGenerator

/-- The license-resolution step of `CPackGenerator.general_section`
(installer.py lines 269-274): try `self.get_license_path()` — whose
outcome is passed in as `license_attempt` — and, when it raises
`FileNotFoundError`, fall back to writing
`os.path.join(self.output_path, "LICENSE")` with the literal content
`"No License provided"`.  Any other exception propagates.  Returns the
file system and the resolved `license_path`. -/
def general_section_license (output_path : String)
    (license_attempt : Except PyExc String) (fs : FS) :
    Except PyExc (FS × String) :=
  match license_attempt with
  | Except.ok p => Except.ok (fs, p)
  | Except.error (PyExc.fileNotFoundError _) =>
      Except.ok
        (writeFile fs (joinPath output_path "LICENSE") "No License provided",
          joinPath output_path "LICENSE")
  | Except.error e => Except.error e

end CPackGenerator

/-- Embedding of `generate_package_description_file` (installer.py lines
149-173):

    description_file = os.path.join(output_path, output_name)
    with open(description_file, "w") as f:
        data = package_metadata.get_all("summary", failobj="")
        if isinstance(data, list):
            data = data[0]
        f.write(data)
    return description_file

`summary_values` is the list of values of the wheel's `Summary` metadata
field (`get_all` returns them as a list when the field is present, and the
`failobj` empty string otherwise, so the written content is the first
value when one exists and the empty string otherwise). -/
def generate_package_description_file (summary_values : List String)
    (output_path : String) (output_name : String) (fs : FS) : FS × String :=
  let description_file := joinPath output_path output_name
  let data : String :=
    match summary_values with
    | [] => ""
    | v :: _ => v
  (writeFile fs description_file data, description_file)

end SpeedwagonScripts

namespace SpeedwagonScripts

lemma get_license_all_none (k : Nat) :
    get_license (List.replicate k (LicenseStrategyBehavior.returns none)) =
      (Except.error (PyExc.fileNotFoundError "Unable to find license file"),
        k) := by
  induction k with
  | zero => simp [get_license]
  | succ n ih => simp [List.replicate_succ, get_license, ih]

lemma get_cpack_path_all_fail (msgs : List String) :
    get_cpack_path (msgs.map failingCpackStrategy) =
      (Except.error (PyExc.fileNotFoundError "cpack command not found"),
        msgs.length) := by
  induction msgs with
  | nil => simp [get_cpack_path]
  | cons m rest ih => simp [failingCpackStrategy, get_cpack_path, ih]

/-- C1: in both fallback resolvers, if every strategy before position `k`
fails in the designated way (`None` return for `get_license`,
`FileNotFoundError` for `get_cpack_path`) and the strategy at position `k`
succeeds with value `v`, then the resolver returns `v`, exactly the first
`k + 1` strategies are invoked (all of the failing prefix plus the
succeeding one), and the strategies after position `k` — arbitrary `rest`
— are never invoked, whatever they would do. -/
theorem fallback_resolver_short_circuit :
    (∀ (k : Nat) (v : String) (rest : List LicenseStrategyBehavior),
      get_license
          (List.replicate k (LicenseStrategyBehavior.returns none) ++
            LicenseStrategyBehavior.returns (some v) :: rest) =
        (Except.ok v, k + 1)) ∧
    (∀ (msgs : List String) (v : String) (rest : List CPackStrategyBehavior),
      get_cpack_path
          (msgs.map failingCpackStrategy ++
            CPackStrategyBehavior.returns v :: rest) =
        (Except.ok v, msgs.length + 1)) := by
  constructor
  · intro k v rest
    induction k with
    | zero => simp [get_license]
    | succ n ih => simp [List.replicate_succ, get_license, ih]
  · intro msgs v rest
    induction msgs with
    | nil => simp [get_cpack_path]
    | cons m ms ih => simp [failingCpackStrategy, get_cpack_path, ih]

/-- C2: when every strategy fails in the designated way, `get_license`
raises `FileNotFoundError("Unable to find license file")` — whose message
names the license file — after invoking all `k` strategies, and
`get_cpack_path` raises `FileNotFoundError("cpack command not found")` —
whose message names the cpack executable — after invoking all strategies;
neither resolver returns a value (the outcome is `Except.error`). -/
theorem fallback_resolver_exhaustion :
    (∀ k : Nat,
      get_license (List.replicate k (LicenseStrategyBehavior.returns none)) =
        (Except.error
          (PyExc.fileNotFoundError "Unable to find license file"), k)) ∧
    "license file".toList <:+: "Unable to find license file".toList ∧
    (∀ msgs : List String,
      get_cpack_path (msgs.map failingCpackStrategy) =
        (Except.error
          (PyExc.fileNotFoundError "cpack command not found"),
          msgs.length)) ∧
    "cpack".toList <:+: "cpack command not found".toList := by
  refine ⟨get_license_all_none, by decide, get_cpack_path_all_fail, by decide⟩

/-- C10: `get_license` advances past a strategy only on a `None` return:
whatever exception `e` a strategy raises (a `FileNotFoundError` included)
propagates immediately, so after a prefix of `k` `None`-returning
strategies a raising strategy ends the run with error `e` and the
strategies after it are never invoked (invocation count `k + 1`).  By
contrast, `get_cpack_path` catches a strategy's `FileNotFoundError` and
continues with the remaining strategies (its outcome is the outcome on the
rest, with one more invocation), while an exception other than
`FileNotFoundError` propagates from it immediately. -/
theorem get_license_propagates_exceptions :
    (∀ (k : Nat) (e : PyExc) (rest : List LicenseStrategyBehavior),
      get_license
          (List.replicate k (LicenseStrategyBehavior.returns none) ++
            LicenseStrategyBehavior.raises e :: rest) =
        (Except.error e, k + 1)) ∧
    (∀ (m : String) (rest : List CPackStrategyBehavior),
      get_cpack_path
          (CPackStrategyBehavior.raises (PyExc.fileNotFoundError m) :: rest) =
        ((get_cpack_path rest).1, (get_cpack_path rest).2 + 1)) ∧
    (∀ (m : String) (rest : List CPackStrategyBehavior),
      get_cpack_path
          (CPackStrategyBehavior.raises (PyExc.otherError m) :: rest) =
        (Except.error (PyExc.otherError m), 1)) := by
  refine ⟨?_, ?_, ?_⟩
  · intro k e rest
    induction k with
    | zero => simp [get_license]
    | succ n ih => simp [List.replicate_succ, get_license, ih]
  · intro m rest
    simp [get_cpack_path]
  · intro m rest
    simp [get_cpack_path]

lemma digitChar_ne_Y (m : Nat) : Nat.digitChar m ≠ 'Y' := by
  rcases Nat.lt_or_ge m 16 with h | h
  · interval_cases m <;> decide
  · unfold Nat.digitChar
    rw [if_neg (by omega : ¬ m = 0), if_neg (by omega : ¬ m = 1),
      if_neg (by omega : ¬ m = 2), if_neg (by omega : ¬ m = 3),
      if_neg (by omega : ¬ m = 4), if_neg (by omega : ¬ m = 5),
      if_neg (by omega : ¬ m = 6), if_neg (by omega : ¬ m = 7),
      if_neg (by omega : ¬ m = 8), if_neg (by omega : ¬ m = 9),
      if_neg (by omega : ¬ m = 10), if_neg (by omega : ¬ m = 11),
      if_neg (by omega : ¬ m = 12), if_neg (by omega : ¬ m = 13),
      if_neg (by omega : ¬ m = 14), if_neg (by omega : ¬ m = 15)]
    decide

lemma toDigitsCore_ne_Y (b fuel n : Nat) (l : List Char) (hl : 'Y' ∉ l) :
    'Y' ∉ Nat.toDigitsCore b fuel n l := by
  induction fuel generalizing n l with
  | zero => simpa [Nat.toDigitsCore] using hl
  | succ f ih =>
    simp only [Nat.toDigitsCore]
    split
    · intro h
      rcases List.mem_cons.mp h with h1 | h2
      · exact digitChar_ne_Y (n % b) h1.symm
      · exact hl h2
    · apply ih
      intro h
      rcases List.mem_cons.mp h with h1 | h2
      · exact digitChar_ne_Y (n % b) h1.symm
      · exact hl h2

lemma repr_ne_Y (n : Nat) : 'Y' ∉ (Nat.repr n).data := by
  show 'Y' ∉ Nat.toDigitsCore 10 (n + 1) n []
  exact toDigitsCore_ne_Y 10 (n + 1) n [] (by simp)

lemma is_prerelease_of_devrelease {v : Version}
    (hd : v.is_devrelease = true) : v.is_prerelease = true := by
  unfold Version.is_devrelease at hd
  unfold Version.is_prerelease
  simp [hd]

/-- C3: in `CPackGenerator.get_cpack_package_file_name`, a non-prerelease
version yields the plain tagged pattern with no prerelease suffix; a
version with dev number 2 yields a pattern that is exactly the plain
name-version pattern followed by `.dev2` (so a generic prerelease marker
is omitted, whatever `pre` holds — dev takes precedence); and a non-dev
version whose prerelease pair renders as `"123"` yields a pattern
containing `.123`.  The three cases are stated so that each hypothesis set
matches the source's decision order: not-prerelease first, then
dev-release (which always implies prerelease), then generic prerelease. -/
theorem version_classification_file_name (v : Version) :
    (v.is_prerelease = false →
      CPackGenerator.get_cpack_package_file_name v =
        "$\x7bCPACK_PACKAGE_NAME\x7d-$\x7bCPACK_PACKAGE_VERSION\x7d-$\x7bCPACK_SYSTEM_NAME\x7d") ∧
    (v.dev = some 2 →
      CPackGenerator.get_cpack_package_file_name v =
        "$\x7bCPACK_PACKAGE_NAME\x7d-$\x7bCPACK_PACKAGE_VERSION\x7d.dev2" ∧
      ".dev2".toList <:+:
        (CPackGenerator.get_cpack_package_file_name v).toList) ∧
    (v.dev = none → ∀ p : String × Nat, v.pre = some p →
      p.1 ++ Nat.repr p.2 = "123" →
      ".123".toList <:+:
        (CPackGenerator.get_cpack_package_file_name v).toList) := by
  refine ⟨?_, ?_, ?_⟩
  · intro h
    simp [CPackGenerator.get_cpack_package_file_name, h]
  · intro h
    have hd : v.is_devrelease = true := by
      unfold Version.is_devrelease
      simp [h]
    have hp : v.is_prerelease = true := is_prerelease_of_devrelease hd
    have hres : CPackGenerator.get_cpack_package_file_name v =
        "$\x7bCPACK_PACKAGE_NAME\x7d-$\x7bCPACK_PACKAGE_VERSION\x7d.dev2" := by
      simp [CPackGenerator.get_cpack_package_file_name, hp, hd,
        Version.devNum, h]
      decide
    refine ⟨hres, ?_⟩
    rw [hres]
    decide
  · intro hdev p hpre hren
    have hd : v.is_devrelease = false := by
      unfold Version.is_devrelease
      simp [hdev]
    have hp : v.is_prerelease = true := by
      unfold Version.is_prerelease
      simp [hpre]
    have hres : CPackGenerator.get_cpack_package_file_name v =
        "$\x7bCPACK_PACKAGE_NAME\x7d-" ++ "$\x7bCPACK_PACKAGE_VERSION\x7d." ++
          "123" ++ "-$\x7bCPACK_SYSTEM_NAME\x7d" := by
      simp [CPackGenerator.get_cpack_package_file_name, hp, hd,
        Version.preStr, hpre, hren]
    rw [hres]
    decide

/-- C3 witness: the three classification cases evaluated at version values
1.2.3, 1.2.3.dev2 and 1.2.3.123 (pre pair rendering as "123"). -/
theorem version_classification_file_name_witness :
    ((Version.mk 1 2 3 none none).is_prerelease = false ∧
      CPackGenerator.get_cpack_package_file_name (Version.mk 1 2 3 none none) =
        "$\x7bCPACK_PACKAGE_NAME\x7d-$\x7bCPACK_PACKAGE_VERSION\x7d-$\x7bCPACK_SYSTEM_NAME\x7d") ∧
    (CPackGenerator.get_cpack_package_file_name
        (Version.mk 1 2 3 none (some 2)) =
        "$\x7bCPACK_PACKAGE_NAME\x7d-$\x7bCPACK_PACKAGE_VERSION\x7d.dev2" ∧
      ".dev2".toList <:+:
        (CPackGenerator.get_cpack_package_file_name
          (Version.mk 1 2 3 none (some 2))).toList) ∧
    ".123".toList <:+:
      (CPackGenerator.get_cpack_package_file_name
        (Version.mk 1 2 3 (some ("", 123)) none)).toList :=
  ⟨⟨by decide,
      (version_classification_file_name (Version.mk 1 2 3 none none)).1
        (by decide)⟩,
    (version_classification_file_name (Version.mk 1 2 3 none (some 2))).2.1
      rfl,
    (version_classification_file_name
        (Version.mk 1 2 3 (some ("", 123)) none)).2.2
      rfl ("", 123) rfl (by decide)⟩

/-- C9: `CPackGenerator.get_cpack_package_file_name` omits the
`CPACK_SYSTEM_NAME` tag exactly on dev releases: for every dev-release
version the returned pattern does not contain the tag (the proof rests on
the tag containing the letter Y while the dev pattern is built only from
the fixed name-version prefix, `.dev`, and decimal digits), while for
every non-prerelease version and every non-dev prerelease version the
returned pattern does contain the tag. -/
theorem dev_release_pattern_omits_system_name (v : Version) :
    (v.is_devrelease = true →
      ¬ ("$\x7bCPACK_SYSTEM_NAME\x7d".toList <:+:
          (CPackGenerator.get_cpack_package_file_name v).toList)) ∧
    (v.is_prerelease = false →
      "$\x7bCPACK_SYSTEM_NAME\x7d".toList <:+:
        (CPackGenerator.get_cpack_package_file_name v).toList) ∧
    (v.is_prerelease = true → v.is_devrelease = false →
      "$\x7bCPACK_SYSTEM_NAME\x7d".toList <:+:
        (CPackGenerator.get_cpack_package_file_name v).toList) := by
  refine ⟨?_, ?_, ?_⟩
  · intro hd hinf
    have hp : v.is_prerelease = true := is_prerelease_of_devrelease hd
    have hres : CPackGenerator.get_cpack_package_file_name v =
        "$\x7bCPACK_PACKAGE_NAME\x7d-$\x7bCPACK_PACKAGE_VERSION\x7d" ++
          ".dev" ++ Nat.repr v.devNum := by
      simp [CPackGenerator.get_cpack_package_file_name, hp, hd]
    rw [hres] at hinf
    have hY : 'Y' ∈
        (("$\x7bCPACK_PACKAGE_NAME\x7d-$\x7bCPACK_PACKAGE_VERSION\x7d" ++
          ".dev" ++ Nat.repr v.devNum)).toList :=
      hinf.subset (by decide)
    simp only [String.toList, String.data_append] at hY
    rcases List.mem_append.mp hY with h1 | h2
    · exact absurd h1 (by decide)
    · exact repr_ne_Y v.devNum h2
  · intro h
    simp only [CPackGenerator.get_cpack_package_file_name, h,
      Bool.not_false, if_pos]
    decide
  · intro hp hd
    have hres : CPackGenerator.get_cpack_package_file_name v =
        ("$\x7bCPACK_PACKAGE_NAME\x7d-" ++
          "$\x7bCPACK_PACKAGE_VERSION\x7d." ++ v.preStr) ++
          "-$\x7bCPACK_SYSTEM_NAME\x7d" := by
      simp [CPackGenerator.get_cpack_package_file_name, hp, hd]
    rw [hres]
    have h1 : "$\x7bCPACK_SYSTEM_NAME\x7d".toList <:+
        ("-$\x7bCPACK_SYSTEM_NAME\x7d").toList := ⟨['-'], by decide⟩
    have h2 : ("-$\x7bCPACK_SYSTEM_NAME\x7d").toList <:+
        (("$\x7bCPACK_PACKAGE_NAME\x7d-" ++
          "$\x7bCPACK_PACKAGE_VERSION\x7d." ++ v.preStr) ++
          "-$\x7bCPACK_SYSTEM_NAME\x7d").toList := by
      simp only [String.toList, String.data_append]
      exact List.suffix_append _ _
    exact List.IsSuffix.isInfix (List.IsSuffix.trans h1 h2)

/-- C9 witness: the system-name tag is absent from the pattern of the dev
release 1.2.3.dev2 and present in the patterns of 1.2.3 and of the
non-dev prerelease 1.2.3rc1. -/
theorem dev_release_pattern_omits_system_name_witness :
    ((Version.mk 1 2 3 none (some 2)).is_devrelease = true ∧
      ¬ ("$\x7bCPACK_SYSTEM_NAME\x7d".toList <:+:
          (CPackGenerator.get_cpack_package_file_name
            (Version.mk 1 2 3 none (some 2))).toList)) ∧
    ("$\x7bCPACK_SYSTEM_NAME\x7d".toList <:+:
      (CPackGenerator.get_cpack_package_file_name
        (Version.mk 1 2 3 none none)).toList) ∧
    ("$\x7bCPACK_SYSTEM_NAME\x7d".toList <:+:
      (CPackGenerator.get_cpack_package_file_name
        (Version.mk 1 2 3 (some ("rc", 1)) none)).toList) :=
  ⟨⟨by decide,
      (dev_release_pattern_omits_system_name
          (Version.mk 1 2 3 none (some 2))).1 (by decide)⟩,
    (dev_release_pattern_omits_system_name (Version.mk 1 2 3 none none)).2.1
      (by decide),
    (dev_release_pattern_omits_system_name
        (Version.mk 1 2 3 (some ("rc", 1)) none)).2.2 (by decide)
      (by decide)⟩

lemma lookup_updateAssoc_self {R : Type} (l : List (String × R))
    (k : String) (v : R) : List.lookup k (updateAssoc l k v) = some v := by
  induction l with
  | nil => simp [updateAssoc, List.lookup]
  | cons p rest ih =>
    by_cases h : p.1 = k
    · simp [updateAssoc, h, List.lookup]
    · have h2 : ¬ (k = p.1) := fun e => h e.symm
      simp [updateAssoc, h, List.lookup, beq_eq_false_iff_ne.mpr h2, ih]

lemma mem_keys_updateAssoc {R : Type} (l : List (String × R))
    (k a : String) (v : R) :
    a ∈ (updateAssoc l k v).map Prod.fst ↔
      a ∈ l.map Prod.fst ∨ a = k := by
  induction l with
  | nil => simp [updateAssoc]
  | cons p rest ih =>
    by_cases h : p.1 = k
    · subst h
      simp [updateAssoc]
      tauto
    · simp [updateAssoc, h, ih]
      tauto

lemma mem_keys_pyDict_foldl {R : Type} (l : List (String × R))
    (acc : List (String × R)) (a : String) :
    a ∈ (List.foldl (fun d p => updateAssoc d p.1 p.2) acc l).map Prod.fst ↔
      a ∈ acc.map Prod.fst ∨ a ∈ l.map Prod.fst := by
  induction l generalizing acc with
  | nil => simp
  | cons p rest ih =>
    simp only [List.foldl_cons, ih, mem_keys_updateAssoc, List.map_cons,
      List.mem_cons]
    tauto

lemma mem_keys_pyDict {R : Type} (l : List (String × R)) (a : String) :
    a ∈ (pyDict l).map Prod.fst ↔ a ∈ l.map Prod.fst := by
  rw [pyDict, mem_keys_pyDict_foldl]
  simp

lemma map_key_default (k : String) :
    map_key DefaultGenerateSpecs.key_mapping k =
      if k = "data_files" then "datas"
      else if k = "top_level_package_folder_name" then "hidden_imports"
      else k := by
  by_cases h1 : k = "data_files"
  · simp [map_key, DefaultGenerateSpecs.key_mapping, List.lookup, h1]
  · by_cases h2 : k = "top_level_package_folder_name"
    · simp [map_key, DefaultGenerateSpecs.key_mapping, List.lookup,
        beq_eq_false_iff_ne.mpr h1, h2]
    · simp [map_key, DefaultGenerateSpecs.key_mapping, List.lookup,
        beq_eq_false_iff_ne.mpr h1, beq_eq_false_iff_ne.mpr h2, h1, h2]

/-- C4: `map_data` is a pure rename.  With an empty `key_mapping` it is the
identity rename (the dict of the fields themselves, every internal name
verbatim).  With `DefaultGenerateSpecs.key_mapping`, the internal names
`data_files` and `top_level_package_folder_name` never occur among the
result's keys, whatever the field list; when a field with such an internal
name is present its template key (`datas` resp. `hidden_imports`) occurs
among the result's keys; and every unmapped key passes through unchanged. -/
theorem map_data_pure_rename {R : Type} (fields : List (String × R)) :
    (map_data [] fields = pyDict fields) ∧
    ("data_files" ∉
      (map_data DefaultGenerateSpecs.key_mapping fields).map Prod.fst) ∧
    ("top_level_package_folder_name" ∉
      (map_data DefaultGenerateSpecs.key_mapping fields).map Prod.fst) ∧
    (∀ v : R, ("data_files", v) ∈ fields →
      "datas" ∈
        (map_data DefaultGenerateSpecs.key_mapping fields).map Prod.fst) ∧
    (∀ v : R, ("top_level_package_folder_name", v) ∈ fields →
      "hidden_imports" ∈
        (map_data DefaultGenerateSpecs.key_mapping fields).map Prod.fst) ∧
    (∀ (k : String) (v : R), (k, v) ∈ fields → k ≠ "data_files" →
      k ≠ "top_level_package_folder_name" →
      k ∈
        (map_data DefaultGenerateSpecs.key_mapping fields).map Prod.fst) := by
  refine ⟨?_, ?_, ?_, ?_, ?_, ?_⟩
  · simp [map_data, map_key, List.lookup]
  · intro hmem
    rw [map_data, mem_keys_pyDict] at hmem
    simp only [List.map_map, List.mem_map, Function.comp] at hmem
    obtain ⟨f, _, heq⟩ := hmem
    rw [map_key_default] at heq
    by_cases h1 : f.1 = "data_files"
    · simp [h1] at heq
    · by_cases h2 : f.1 = "top_level_package_folder_name"
      · simp [h1, h2] at heq
      · simp [h1, h2] at heq
  · intro hmem
    rw [map_data, mem_keys_pyDict] at hmem
    simp only [List.map_map, List.mem_map, Function.comp] at hmem
    obtain ⟨f, _, heq⟩ := hmem
    rw [map_key_default] at heq
    by_cases h1 : f.1 = "data_files"
    · simp [h1] at heq
    · by_cases h2 : f.1 = "top_level_package_folder_name"
      · simp [h1, h2] at heq
      · simp [h1, h2] at heq
  · intro v hv
    rw [map_data, mem_keys_pyDict]
    simp only [List.map_map, List.mem_map, Function.comp]
    exact ⟨("data_files", v), hv, by simp [map_key_default]⟩
  · intro v hv
    rw [map_data, mem_keys_pyDict]
    simp only [List.map_map, List.mem_map, Function.comp]
    exact ⟨("top_level_package_folder_name", v), hv,
      by simp [map_key_default]⟩
  · intro k v hv h1 h2
    rw [map_data, mem_keys_pyDict]
    simp only [List.map_map, List.mem_map, Function.comp]
    exact ⟨(k, v), hv, by simp [map_key_default, h1, h2]⟩

/-- C4 witness: the rename evaluated on the concrete field list
`[("data_files", 1), ("top_level_package_folder_name", 2), ("name", 3)]`. -/
theorem map_data_pure_rename_witness :
    (map_data []
        [("data_files", 1), ("top_level_package_folder_name", 2),
          ("name", (3 : Nat))] =
      pyDict
        [("data_files", 1), ("top_level_package_folder_name", 2),
          ("name", 3)]) ∧
    ("data_files" ∉
      (map_data DefaultGenerateSpecs.key_mapping
        [("data_files", 1), ("top_level_package_folder_name", 2),
          ("name", (3 : Nat))]).map Prod.fst) ∧
    ("datas" ∈
      (map_data DefaultGenerateSpecs.key_mapping
        [("data_files", 1), ("top_level_package_folder_name", 2),
          ("name", (3 : Nat))]).map Prod.fst) ∧
    ("name" ∈
      (map_data DefaultGenerateSpecs.key_mapping
        [("data_files", 1), ("top_level_package_folder_name", 2),
          ("name", (3 : Nat))]).map Prod.fst) :=
  ⟨(map_data_pure_rename _).1,
    (map_data_pure_rename _).2.1,
    (map_data_pure_rename
        [("data_files", 1), ("top_level_package_folder_name", 2),
          ("name", 3)]).2.2.2.1 1 (by decide),
    (map_data_pure_rename
        [("data_files", 1), ("top_level_package_folder_name", 2),
          ("name", 3)]).2.2.2.2.2 "name" 3 (by decide) (by decide)
      (by decide)⟩

/-- C5: a platform key registered in none of the three platform registries
makes each lookup raise a `ValueError` whose message contains the
requested key — `write_cpack_config_file` with
`"Unsupported platform '<key>'"`, `main` and `find_frozen_folder` with
`"Unsupported platform: <key>"` — and no lookup falls back to a default:
each returns the error outcome, never a registered implementation. -/
theorem platform_registry_miss (key : String)
    (h1 : key ≠ "win32") (h2 : key ≠ "darwin") :
    write_cpack_config_file_generator key =
      Except.error
        (PyExc.valueError
          ("Unsupported platform \x27" ++ key ++ "\x27")) ∧
    main_config_generator key =
      Except.error (PyExc.valueError ("Unsupported platform: " ++ key)) ∧
    find_frozen_folder_strategy key =
      Except.error (PyExc.valueError ("Unsupported platform: " ++ key)) ∧
    key.toList <:+:
      ("Unsupported platform \x27" ++ key ++ "\x27").toList ∧
    key.toList <:+: ("Unsupported platform: " ++ key).toList := by
  refine ⟨?_, ?_, ?_, ?_, ?_⟩
  · simp [write_cpack_config_file_generator, generators, List.lookup,
      beq_eq_false_iff_ne.mpr h1, beq_eq_false_iff_ne.mpr h2]
  · simp [main_config_generator, config_os_mappings, List.lookup,
      beq_eq_false_iff_ne.mpr h1, beq_eq_false_iff_ne.mpr h2]
  · simp [find_frozen_folder_strategy, find_frozen_folder_strategies,
      List.lookup, beq_eq_false_iff_ne.mpr h1, beq_eq_false_iff_ne.mpr h2]
  · refine ⟨"Unsupported platform \x27".toList, "\x27".toList, ?_⟩
    simp [String.toList, String.data_append]
  · refine ⟨"Unsupported platform: ".toList, [], ?_⟩
    simp [String.toList, String.data_append]

/-- C5 witness: the three registry lookups at the unregistered key
"linux". -/
theorem platform_registry_miss_witness :
    "linux" ≠ "win32" ∧ "linux" ≠ "darwin" ∧
    write_cpack_config_file_generator "linux" =
      Except.error
        (PyExc.valueError "Unsupported platform \x27linux\x27") ∧
    main_config_generator "linux" =
      Except.error (PyExc.valueError "Unsupported platform: linux") ∧
    find_frozen_folder_strategy "linux" =
      Except.error (PyExc.valueError "Unsupported platform: linux") :=
  ⟨by decide, by decide,
    by simpa using (platform_registry_miss "linux" (by decide) (by decide)).1,
    by simpa using
      (platform_registry_miss "linux" (by decide) (by decide)).2.1,
    by simpa using
      (platform_registry_miss "linux" (by decide) (by decide)).2.2.1⟩

/-- C6: `locate_installer_artifact` scans only the direct entries of the
output directory, in order.  For both packagers: when the entries hold a
file (non-directory) whose name ends in the platform extension, possibly
after entries that are directories or do not match, the first such file's
path is returned and the later entries are irrelevant; when no direct
entry is a matching file, a `FileNotFoundError` naming the directory is
raised; and the contents of subdirectory entries are never examined — the
result is unchanged under replacing any entry's children. -/
theorem locate_installer_artifact_direct_scan :
    (∀ (path : String) (pre : List FileNode) (e : FileNode)
        (post : List FileNode),
      (∀ x ∈ pre, x.isDirectory = true ∨ pyEndsWith x.name ".dmg" = false) →
      e.isDirectory = false → pyEndsWith e.name ".dmg" = true →
      AppleDMGPlatformPackager.locate_installer_artifact path
          (pre ++ e :: post) =
        Except.ok (entry_path path e)) ∧
    (∀ (path : String) (entries : List FileNode),
      (∀ x ∈ entries,
        x.isDirectory = true ∨ pyEndsWith x.name ".dmg" = false) →
      AppleDMGPlatformPackager.locate_installer_artifact path entries =
        Except.error
          (PyExc.fileNotFoundError ("No dmg file in " ++ path))) ∧
    (∀ (path n : String) (d : Bool) (c1 c2 : List FileNode)
        (rest : List FileNode),
      AppleDMGPlatformPackager.locate_installer_artifact path
          (FileNode.mk n d c1 :: rest) =
        AppleDMGPlatformPackager.locate_installer_artifact path
          (FileNode.mk n d c2 :: rest)) ∧
    (∀ (path : String) (pre : List FileNode) (e : FileNode)
        (post : List FileNode),
      (∀ x ∈ pre, x.isDirectory = true ∨ pyEndsWith x.name ".msi" = false) →
      e.isDirectory = false → pyEndsWith e.name ".msi" = true →
      MSIPlatformPackager.locate_installer_artifact path
          (pre ++ e :: post) =
        Except.ok (entry_path path e)) ∧
    (∀ (path : String) (entries : List FileNode),
      (∀ x ∈ entries,
        x.isDirectory = true ∨ pyEndsWith x.name ".msi" = false) →
      MSIPlatformPackager.locate_installer_artifact path entries =
        Except.error
          (PyExc.fileNotFoundError ("No .msi found in " ++ path))) ∧
    (∀ (path n : String) (d : Bool) (c1 c2 : List FileNode)
        (rest : List FileNode),
      MSIPlatformPackager.locate_installer_artifact path
          (FileNode.mk n d c1 :: rest) =
        MSIPlatformPackager.locate_installer_artifact path
          (FileNode.mk n d c2 :: rest)) := by
  refine ⟨?_, ?_, ?_, ?_, ?_, ?_⟩
  · intro path pre e post hall hdir hmatch
    induction pre with
    | nil =>
      simp [AppleDMGPlatformPackager.locate_installer_artifact, hdir, hmatch]
    | cons x xs ih =>
      have hx := hall x (by simp)
      have hrec := ih fun y hy => hall y (by simp [hy])
      rcases hx with hx | hx
      · simpa [AppleDMGPlatformPackager.locate_installer_artifact, hx]
          using hrec
      · by_cases hd2 : x.isDirectory
        · simpa [AppleDMGPlatformPackager.locate_installer_artifact, hd2]
            using hrec
        · simpa [AppleDMGPlatformPackager.locate_installer_artifact, hd2, hx]
            using hrec
  · intro path entries hall
    induction entries with
    | nil => simp [AppleDMGPlatformPackager.locate_installer_artifact]
    | cons x xs ih =>
      have hx := hall x (by simp)
      have hrec := ih fun y hy => hall y (by simp [hy])
      rcases hx with hx | hx
      · simpa [AppleDMGPlatformPackager.locate_installer_artifact, hx]
          using hrec
      · by_cases hd2 : x.isDirectory
        · simpa [AppleDMGPlatformPackager.locate_installer_artifact, hd2]
            using hrec
        · simpa [AppleDMGPlatformPackager.locate_installer_artifact, hd2, hx]
            using hrec
  · intro path n d c1 c2 rest
    rfl
  · intro path pre e post hall hdir hmatch
    induction pre with
    | nil =>
      simp [MSIPlatformPackager.locate_installer_artifact, hdir, hmatch]
    | cons x xs ih =>
      have hx := hall x (by simp)
      have hrec := ih fun y hy => hall y (by simp [hy])
      rcases hx with hx | hx
      · simpa [MSIPlatformPackager.locate_installer_artifact, hx] using hrec
      · by_cases hd2 : x.isDirectory
        · simpa [MSIPlatformPackager.locate_installer_artifact, hd2]
            using hrec
        · simpa [MSIPlatformPackager.locate_installer_artifact, hd2, hx]
            using hrec
  · intro path entries hall
    induction entries with
    | nil => simp [MSIPlatformPackager.locate_installer_artifact]
    | cons x xs ih =>
      have hx := hall x (by simp)
      have hrec := ih fun y hy => hall y (by simp [hy])
      rcases hx with hx | hx
      · simpa [MSIPlatformPackager.locate_installer_artifact, hx] using hrec
      · by_cases hd2 : x.isDirectory
        · simpa [MSIPlatformPackager.locate_installer_artifact, hd2]
            using hrec
        · simpa [MSIPlatformPackager.locate_installer_artifact, hd2, hx]
            using hrec
  · intro path n d c1 c2 rest
    rfl

/-- C6 witness: a directory holding one subdirectory and one `.dmg` file
yields the `.dmg` file's path; a directory holding a text file and a
subdirectory (one of them named like an installer but being a directory)
yields the not-found error; likewise for `.msi`. -/
theorem locate_installer_artifact_direct_scan_witness :
    AppleDMGPlatformPackager.locate_installer_artifact "dist"
        [FileNode.mk "sub" true [], FileNode.mk "app.dmg" false []] =
      Except.ok "dist/app.dmg" ∧
    AppleDMGPlatformPackager.locate_installer_artifact "dist"
        [FileNode.mk "readme.txt" false [],
          FileNode.mk "fake.dmg" true [FileNode.mk "inner.dmg" false []]] =
      Except.error (PyExc.fileNotFoundError "No dmg file in dist") ∧
    MSIPlatformPackager.locate_installer_artifact "out"
        [FileNode.mk "app.msi" false []] =
      Except.ok "out/app.msi" ∧
    MSIPlatformPackager.locate_installer_artifact "out" [] =
      Except.error (PyExc.fileNotFoundError "No .msi found in out") :=
  ⟨by
      have h := locate_installer_artifact_direct_scan.1 "dist"
        [FileNode.mk "sub" true []] (FileNode.mk "app.dmg" false []) []
        (by
          intro x hx
          simp at hx
          subst hx
          left
          rfl)
        rfl (by decide)
      simpa [entry_path, joinPath, FileNode.name] using h,
    by
      have h := locate_installer_artifact_direct_scan.2.1 "dist"
        [FileNode.mk "readme.txt" false [],
          FileNode.mk "fake.dmg" true [FileNode.mk "inner.dmg" false []]]
        (by
          intro x hx
          simp at hx
          rcases hx with hx | hx
          · subst hx
            right
            decide
          · subst hx
            left
            rfl)
      simpa using h,
    by
      have h := locate_installer_artifact_direct_scan.2.2.2.1 "out"
        [] (FileNode.mk "app.msi" false []) []
        (by intro x hx; simp at hx)
        rfl (by decide)
      simpa [entry_path, joinPath, FileNode.name] using h,
    by
      have h := locate_installer_artifact_direct_scan.2.2.2.2.1 "out" []
        (by intro x hx; simp at hx)
      simpa using h⟩

/-- C7: `GenerateNoLicenseGivenFile.__call__` always writes its configured
output file with exactly the text "No License given" and returns the
file's absolute path — it is total (never raises, never returns `None`);
and the `FileNotFoundError` fallback branch of
`CPackGenerator.general_section` writes `<output_path>/LICENSE` with
exactly the text "No License provided" and proceeds with that path. -/
theorem no_license_placeholder (cwd output_file output_path msg : String)
    (fs fs2 : FS) :
    (readFile ((GenerateNoLicenseGivenFile.call cwd output_file fs).1)
        output_file = some "No License given" ∧
      (GenerateNoLicenseGivenFile.call cwd output_file fs).2 =
        abspath cwd output_file) ∧
    (CPackGenerator.general_section_license output_path
        (Except.error (PyExc.fileNotFoundError msg)) fs2 =
      Except.ok
        (writeFile fs2 (joinPath output_path "LICENSE")
          "No License provided",
          joinPath output_path "LICENSE") ∧
      readFile
          (writeFile fs2 (joinPath output_path "LICENSE")
            "No License provided")
          (joinPath output_path "LICENSE") =
        some "No License provided") := by
  refine ⟨⟨?_, rfl⟩, rfl, ?_⟩
  · simp [GenerateNoLicenseGivenFile.call,
      GenerateNoLicenseGivenFile.write_license_file,
      GenerateNoLicenseGivenFile.get_license_text, writeFile, readFile,
      lookup_updateAssoc_self]
  · simp [readFile, writeFile, lookup_updateAssoc_self]

/-- C8: `generate_package_description_file` returns the path
`<output_path>/<output_name>` under the given output directory and writes
that file with the first value of the wheel's `Summary` metadata field. -/
theorem package_description_first_summary_line (line : String)
    (rest : List String) (output_path output_name : String) (fs : FS) :
    (generate_package_description_file (line :: rest) output_path
        output_name fs).2 = joinPath output_path output_name ∧
    readFile
        (generate_package_description_file (line :: rest) output_path
          output_name fs).1
        (joinPath output_path output_name) = some line := by
  constructor
  · rfl
  · simp [generate_package_description_file, readFile, writeFile,
      lookup_updateAssoc_self]

end SpeedwagonScripts
